import Mathlib

/-
  Shallow embedding of the puzzle validation engine of `logic_validator.py`
  (function `validate_puzzle`).

  The program builds a boolean constraint model over one variable per
  (actor, vector, asset) triple, adds constraints derived from the clues,
  asks z3 for satisfiability and one model, and classifies the outcome.

  Embedding choices:
  * z3 boolean formulas over the triple variables become the inductive
    type `Fm`; the solver's assertion set is a `List Fm`.
  * A z3 model is (after model completion) a total truth assignment to the
    triple variables; we represent such an assignment by the set of true
    triples, a sublist `S` of the triple list, with `t` true iff `S`
    contains `t`.  `satModels` enumerates all satisfying assignments.
  * z3 leaves the choice of the returned model unspecified; the part of the
    program that runs after `s.check()` is therefore embedded as
    `verdictGiven p S` for an arbitrary assignment `S`, and
    `validate_puzzle` instantiates `S` with the first satisfying assignment
    of the enumeration.  `Or(*args)` applied to an empty argument list is
    the constant false in z3, which `bigOr` mirrors.
  * Python string containment `a in text` becomes `substrB a text`;
    `if actor and vector:` tests both resolution success (not `None`) and
    Python truthiness (resolved label not the empty string).
  * The returned dicts become the structure `Verdict` whose optional keys
    are `Option` fields; dict keys absent in a branch are `none` / `[]`.
-/

namespace LogicValidator

/-- An (actor, vector, asset) triple; the unit of truth of a puzzle. -/
abbrev Triple := String × String × String

/-- A clue: its free text and its archetype tag (the dict key `type`,
bound to the local variable `typ` in the source). -/
structure Clue where
  text : String
  typ : String
deriving Repr, DecidableEq

/-- The declared solution quadruple of a puzzle. -/
structure Solution where
  actor : String
  vector : String
  asset : String
  stolen_data : String
deriving Repr, DecidableEq

/-- A puzzle: the four catalogs, the declared solution and the clue list. -/
structure Puzzle where
  actors : List String
  vectors : List String
  assets : List String
  stolen_data : List String
  solution : Solution
  clues : List Clue
deriving Repr, DecidableEq

/-- Boolean formulas over the triple variables, mirroring the z3
expressions the source builds (`Bool`, `Not`, `And`, `Or`, `Implies`). -/
inductive Fm where
  | falseF
  | varF (t : Triple)
  | notF (p : Fm)
  | andF (p q : Fm)
  | orF (p q : Fm)
  | impliesF (p q : Fm)
deriving Repr, DecidableEq

/-- Truth value of a formula under a truth assignment to the triple
variables. -/
def Fm.eval (m : Triple → Bool) : Fm → Bool
  | .falseF => false
  | .varF t => m t
  | .notF p => !(p.eval m)
  | .andF p q => p.eval m && q.eval m
  | .orF p q => p.eval m || q.eval m
  | .impliesF p q => !(p.eval m) || q.eval m

/-- z3 n-ary disjunction `Or(*l)`; empty `Or()` is false. -/
def bigOr (l : List Fm) : Fm := l.foldr Fm.orF Fm.falseF

/-- Contiguous-sublist test on character lists, the semantics of the
Python substring operator `needle in hay`. -/
def isSubListB (needle : List Char) : List Char → Bool
  | [] => needle.isEmpty
  | c :: rest => needle.isPrefixOf (c :: rest) || isSubListB needle rest

/-- Python `needle in hay` on strings. -/
def substrB (needle hay : String) : Bool :=
  isSubListB needle.toList hay.toList

/-- The entity-resolution loop of the source: walk the catalog in order and
return the first item contained in the clue text (`for a in actors: if a in
text: actor = a; break`), or none. -/
def resolveEntity : List String → String → Option String
  | [], _ => none
  | x :: xs, text => if substrB x text then some x else resolveEntity xs text

/-- The triple list, in the iteration order of the nested loops that
populate `trip_vars` (actors outermost, assets innermost). -/
def allTriples (actors vectors assets : List String) : List Triple :=
  actors.flatMap fun a => vectors.flatMap fun v => assets.map fun t => (a, v, t)

/-- The pairwise not-both-true constraints the source attempts to add:
`for t1, t2 in zip(trip_vars.values(), trip_vars.values()): if t1 is not
t2: s.add(Not(And(t1, t2)))`.  The zip pairs every variable with itself,
so the guard never holds. -/
def pairwiseConstraints (trips : List Triple) : List Fm :=
  ((trips.zip trips).filter fun pr => pr.1 != pr.2).map fun pr =>
    Fm.notF (Fm.andF (Fm.varF pr.1) (Fm.varF pr.2))

/-- Constraint contribution of one clue, paired with the warnings printed
for that clue.  The `except` branch of the source prints a warning only
when the clue body raises; over well-typed clue records no operation in
the body can raise, so the warning list is empty in every branch.  The
guards `if actor and vector:` etc. are Python truthiness tests: resolution
must succeed and the resolved label must be non-empty.  The membership
guards `if (a, v, t) in trip_vars` of the source always hold because the
components come from the catalogs, and are dropped. -/
def clueCompile (actors vectors assets stolen_data : List String)
    (c : Clue) : List Fm × List String :=
  let text := c.text
  if c.typ = "negation" then
    match resolveEntity actors text, resolveEntity vectors text with
    | some actor, some vector =>
      if actor ≠ "" ∧ vector ≠ "" then
        (assets.map fun t => Fm.notF (Fm.varF (actor, vector, t)), [])
      else ([], [])
    | _, _ => ([], [])
  else if c.typ = "affirmative" then
    match resolveEntity vectors text, resolveEntity assets text with
    | some vector, some asset =>
      if vector ≠ "" ∧ asset ≠ "" then
        let valid_triplets := actors.map fun a => Fm.varF (a, vector, asset)
        if valid_triplets = [] then ([], []) else ([bigOr valid_triplets], [])
      else ([], [])
    | _, _ => ([], [])
  else if c.typ = "relational" then
    match resolveEntity vectors text, resolveEntity assets text with
    | some vector, some asset =>
      if vector ≠ "" ∧ asset ≠ "" then
        (actors.map fun a => Fm.notF (Fm.varF (a, vector, asset)), [])
      else ([], [])
    | _, _ => ([], [])
  else if c.typ = "conditional" then
    match resolveEntity actors text, resolveEntity vectors text,
        resolveEntity assets text with
    | some actor, some vector, some asset =>
      if actor ≠ "" ∧ vector ≠ "" ∧ asset ≠ "" then
        (((assets.filter fun t => t != asset).map fun t =>
            Fm.impliesF (Fm.varF (actor, vector, t))
              (Fm.varF (actor, vector, asset))) ++
          ((assets.filter fun t => t != asset).map fun t =>
            Fm.impliesF (Fm.varF (actor, vector, asset))
              (Fm.notF (Fm.varF (actor, vector, t)))), [])
      else ([], [])
    | _, _, _ => ([], [])
  else if c.typ = "data-inference" then
    -- the source resolves a vector and a stolen-data label and then `pass`es
    let _vector := resolveEntity vectors text
    let _data_type := resolveEntity stolen_data text
    ([], [])
  else
    -- no `else` branch in the source: an unrecognized type adds nothing
    ([], [])

/-- The full assertion set of the solver: the at-least-one disjunction,
the (vacuous) pairwise exclusions, then each clue's contribution in clue
order. -/
def modelAsserts (p : Puzzle) : List Fm :=
  let trips := allTriples p.actors p.vectors p.assets
  bigOr (trips.map Fm.varF) ::
    (pairwiseConstraints trips ++
      (p.clues.map fun c =>
        (clueCompile p.actors p.vectors p.assets p.stolen_data c).1).flatten)

/-- Truth assignment encoded by a set `S` of true triples. -/
def asg (S : List Triple) : Triple → Bool := fun t => S.any fun x => x == t

/-- All satisfying assignments of the model, restricted to (equivalently,
over) the triple-variable set, in enumeration order. -/
def satModels (p : Puzzle) : List (List Triple) :=
  (allTriples p.actors p.vectors p.assets).sublists.filter fun S =>
    (modelAsserts p).all fun f => f.eval (asg S)

/-- The five status strings the source can put in a verdict.  The source
encodes the states Invalid-Unsatisfiable and Invalid-NoSolution with the
same status string "invalid", distinguished by the `reason` field. -/
def statusList : List String :=
  ["invalid", "ambiguous", "mismatch", "data-not-inferable", "valid"]

/-- Per-branch fields of the dict `validate_puzzle` returns; keys the
source omits in a branch are `none` or `[]` here. -/
structure Analysis where
  logical_solution : String
  declared_solution : String
  issue : String
deriving Repr, DecidableEq

/-- The reconstructed solution payload of a valid verdict. -/
structure SolutionOut where
  actor : String
  vector : String
  asset : String
  stolen_data : String
deriving Repr, DecidableEq

/-- The `validation_summary` payload of a valid verdict. -/
structure Summary where
  total_possibilities : Nat
  clues_processed : Nat
  solution_unique : Bool
  data_inferable : Bool
deriving Repr, DecidableEq

/-- The verdict dict: mandatory `status`, optional keys per branch. -/
structure Verdict where
  status : String
  reason : Option String := none
  explanation : Option String := none
  suggestions : List String := []
  solutions : List Triple := []
  found_solutions : List String := []
  found : Option Triple := none
  expected : Option Triple := none
  analysis : Option Analysis := none
  solution : Option SolutionOut := none
  validation_summary : Option Summary := none
deriving Repr, DecidableEq

/-- The verdict returned when `s.check() != sat`. -/
def unsatVerdict : Verdict :=
  { status := "invalid"
    reason := some "unsatisfiable (no solutions)"
    explanation := some ("The clues create a logical contradiction. " ++
      "No combination of actor, vector, and asset can satisfy all the " ++
      "given constraints. This usually means the clues are too " ++
      "restrictive or contain conflicting information.")
    suggestions :=
      ["Review your clues for logical contradictions",
       "Ensure clues do not eliminate all possible solutions",
       "Check that negation clues do not conflict with affirmative clues",
       "Verify that conditional clues are logically consistent"] }

/-- The phrase used for a triple in diagnostics. -/
def tripleDesc (tr : Triple) : String :=
  tr.1 ++ " used " ++ tr.2.1 ++ " against " ++ tr.2.2

/-- The verdict returned when more than one triple variable is true in the
returned model. -/
def ambiguousVerdict (true_triples : List Triple) : Verdict :=
  { status := "ambiguous"
    solutions := true_triples
    explanation := some ("The clues allow " ++ toString true_triples.length ++
      " different valid solutions. A good puzzle should have exactly one " ++
      "solution.")
    found_solutions := true_triples.map tripleDesc
    suggestions :=
      ["Add more clues to eliminate alternative solutions",
       "Use negation clues to rule out specific actor-vector combinations",
       "Add relational clues to restrict which assets can be accessed",
       "Consider using conditional clues to create stronger constraints"] }

/-- The defensive verdict for a satisfiable model in which no triple
variable is true. -/
def noSolutionVerdict : Verdict :=
  { status := "invalid"
    reason := some "no solution found"
    explanation := some ("The solver found no valid solution, but the " ++
      "system is satisfiable. This indicates a logic error in the " ++
      "validation process.")
    suggestions :=
      ["Check the puzzle data for consistency",
       "Verify that all actors, vectors, and assets are properly defined",
       "Review clue parsing logic for errors"] }

/-- The verdict returned when the unique true triple differs from the
declared solution. -/
def mismatchVerdict (true_trip sol : Triple) : Verdict :=
  { status := "mismatch"
    found := some true_trip
    expected := some sol
    explanation := some ("The logical solution (" ++ tripleDesc true_trip ++
      ") does not match your declared solution (" ++ tripleDesc sol ++ ").")
    analysis := some
      { logical_solution := tripleDesc true_trip
        declared_solution := tripleDesc sol
        issue := "The clues logically lead to a different solution than what you specified." }
    suggestions :=
      ["Either change your declared solution to: " ++ tripleDesc true_trip,
       "Or modify your clues to eliminate the logical solution and support your intended solution",
       "Add negation clues to rule out the logical solution",
       "Use affirmative clues to support your intended solution"] }

/-- The verdict returned when the declared stolen-data label occurs in no
clue text. -/
def dataNotInferableVerdict (ds : String) : Verdict :=
  { status := "data-not-inferable"
    explanation := some ("The stolen data " ++ ds ++ " is not mentioned " ++
      "in any clues, making it impossible for solvers to determine what " ++
      "was stolen.")
    suggestions :=
      ["Add a clue that mentions " ++ ds,
       "Use a data inference clue to link the attack vector to the stolen data",
       "Include the stolen data in an affirmative or conditional clue"] }

/-- The verdict returned for a fully valid puzzle. -/
def validVerdict (sol : Triple) (ds : String) (total clues_n : Nat) : Verdict :=
  { status := "valid"
    solution := some
      { actor := sol.1, vector := sol.2.1, asset := sol.2.2, stolen_data := ds }
    explanation := some ("The puzzle is logically consistent and has " ++
      "exactly one solution that matches your declared solution.")
    validation_summary := some
      { total_possibilities := total
        clues_processed := clues_n
        solution_unique := true
        data_inferable := true } }

/-- The tail of the classifier, reached when exactly one triple variable
is true in the returned model: compare with the declared solution, then
run the stolen-data text scan. -/
def compareStep (p : Puzzle) (true_trip : Triple) : Verdict :=
  let sol : Triple := (p.solution.actor, p.solution.vector, p.solution.asset)
  if true_trip ≠ sol then mismatchVerdict true_trip sol
  else
    let ds := p.solution.stolen_data
    let related := p.clues.any fun c => substrB ds c.text
    if !related then dataNotInferableVerdict ds
    else validVerdict sol ds (allTriples p.actors p.vectors p.assets).length
      p.clues.length

/-- The part of `validate_puzzle` that runs after `s.check()` returned
sat, for the (z3-chosen) model with true-triple set `S`: read off the
true triples in `trip_vars` order and classify. -/
def verdictGiven (p : Puzzle) (S : List Triple) : Verdict :=
  let trips := allTriples p.actors p.vectors p.assets
  let true_triples := trips.filter fun t => asg S t
  if 1 < true_triples.length then ambiguousVerdict true_triples
  else
    match true_triples with
    | [] => noSolutionVerdict
    | true_trip :: _ => compareStep p true_trip

/-- `validate_puzzle` with z3's unspecified model choice made explicit:
the verdict produced when the solver reports unsat, or else returns the
model with true-triple set `S`. -/
def validateWithModel (p : Puzzle) (S : List Triple) : Verdict :=
  if satModels p = [] then unsatVerdict else verdictGiven p S

/-- The whole engine, with the model choice instantiated to the first
satisfying assignment in enumeration order. -/
def validate_puzzle (p : Puzzle) : Verdict :=
  match satModels p with
  | [] => unsatVerdict
  | S :: _ => verdictGiven p S

/-- The classifier written in the precedence order of §4.4 of the
specification (Unsatisfiable, No-solution-but-satisfiable, Ambiguous,
Mismatch, DataNotInferable, Valid), for comparison with the code, which
tests the Ambiguous count before the defensive no-solution case. -/
def specPrecedenceValidate (p : Puzzle) (S : List Triple) : Verdict :=
  if satModels p = [] then unsatVerdict
  else
    let trips := allTriples p.actors p.vectors p.assets
    let true_triples := trips.filter fun t => asg S t
    match true_triples with
    | [] => noSolutionVerdict
    | true_trip :: rest =>
      if 1 < (true_trip :: rest).length then ambiguousVerdict (true_trip :: rest)
      else compareStep p true_trip

/-- Resolution failed for a category the clue archetype requires (the
required categories per archetype are those of the table in §4.2). -/
def requiredResolutionFails (actors vectors assets stolen_data : List String)
    (c : Clue) : Prop :=
  (c.typ = "negation" ∧
    (resolveEntity actors c.text = none ∨ resolveEntity vectors c.text = none)) ∨
  (c.typ = "affirmative" ∧
    (resolveEntity vectors c.text = none ∨ resolveEntity assets c.text = none)) ∨
  (c.typ = "relational" ∧
    (resolveEntity vectors c.text = none ∨ resolveEntity assets c.text = none)) ∨
  (c.typ = "conditional" ∧
    (resolveEntity actors c.text = none ∨ resolveEntity vectors c.text = none ∨
      resolveEntity assets c.text = none)) ∨
  (c.typ = "data-inference" ∧
    (resolveEntity vectors c.text = none ∨ resolveEntity stolen_data c.text = none))

/-- The field guarantees of the output contract (§6): a recognized status,
a reason on the conflated "invalid" status, an explanation always, a
non-empty suggestion list on every non-valid status, found and expected
triples on a mismatch, a non-empty solutions list on ambiguity, the
reconstructed solution on validity. -/
def fieldsOK (v : Verdict) : Prop :=
  v.status ∈ statusList ∧
  (v.status = "invalid" → v.reason.isSome = true) ∧
  v.explanation.isSome = true ∧
  (v.status ≠ "valid" → v.suggestions ≠ []) ∧
  (v.status = "mismatch" → v.found.isSome = true ∧ v.expected.isSome = true) ∧
  (v.status = "ambiguous" → v.solutions ≠ []) ∧
  (v.status = "valid" → v.solution.isSome = true)

/-- A two-actor puzzle with no clues: the smallest model on which the
missing pairwise exclusion is visible. -/
def P1 : Puzzle :=
  { actors := ["A", "B"], vectors := ["V"], assets := ["T"],
    stolen_data := ["D"],
    solution := { actor := "A", vector := "V", asset := "T", stolen_data := "D" },
    clues := [] }

/-- A two-actor puzzle whose only clue is a data-inference clue that
mentions the stolen-data label; its constraint model has three satisfying
assignments over the triple variables. -/
def P2 : Puzzle :=
  { actors := ["A", "B"], vectors := ["V"], assets := ["T"],
    stolen_data := ["D"],
    solution := { actor := "A", vector := "V", asset := "T", stolen_data := "D" },
    clues := [{ text := "the D was stolen", typ := "data-inference" }] }

/-- A puzzle with an empty actors catalog. -/
def P6 : Puzzle :=
  { actors := [], vectors := ["V"], assets := ["T"], stolen_data := ["D"],
    solution := { actor := "A", vector := "V", asset := "T", stolen_data := "D" },
    clues := [] }

/-- A puzzle with an empty vectors catalog and one clue whose vector can
therefore never resolve. -/
def P9 : Puzzle :=
  { actors := ["GhostShell"], vectors := [], assets := ["HR Portal"],
    stolen_data := ["D"],
    solution := { actor := "GhostShell", vector := "SQL Injection",
                  asset := "HR Portal", stolen_data := "D" },
    clues := [{ text := "GhostShell did not use SQL Injection", typ := "negation" }] }

/-- A puzzle whose only clue has an unrecognized type and is the only clue
text mentioning the declared stolen-data label. -/
def P10 : Puzzle :=
  { actors := ["A"], vectors := ["V"], assets := ["T"], stolen_data := ["D"],
    solution := { actor := "A", vector := "V", asset := "T", stolen_data := "D" },
    clues := [{ text := "mystery D", typ := "unknown" }] }

/-- A puzzle with one negation clue, used to instantiate negation
soundness at a concrete satisfying assignment. -/
def W3 : Puzzle :=
  { actors := ["A", "B"], vectors := ["V"], assets := ["T"], stolen_data := ["D"],
    solution := { actor := "B", vector := "V", asset := "T", stolen_data := "D" },
    clues := [{ text := "A did not use V", typ := "negation" }] }

/-- A puzzle with one conditional clue over two assets, used to
instantiate the conditional biconditional at a concrete assignment. -/
def W4 : Puzzle :=
  { actors := ["A"], vectors := ["V"], assets := ["S", "T"], stolen_data := ["D"],
    solution := { actor := "A", vector := "V", asset := "S", stolen_data := "D" },
    clues := [{ text := "If A used V then S", typ := "conditional" }] }

/-- A puzzle with an empty assets catalog. -/
def W6 : Puzzle :=
  { actors := ["A"], vectors := ["V"], assets := [], stolen_data := ["D"],
    solution := { actor := "A", vector := "V", asset := "T", stolen_data := "D" },
    clues := [] }

/-- A puzzle with an empty actors catalog and a clue, for the propagation
policy instance. -/
def W9 : Puzzle :=
  { actors := [], vectors := ["X"], assets := ["S1"], stolen_data := ["D1"],
    solution := { actor := "A", vector := "X", asset := "S1", stolen_data := "D1" },
    clues := [{ text := "A used X on S1", typ := "affirmative" }] }

lemma zip_self_filter (l : List Triple) :
    ((l.zip l).filter fun pr => pr.1 != pr.2) = [] := by
  induction l with
  | nil => rfl
  | cons a l ih => simpa [List.filter_cons] using ih

lemma pairwiseConstraints_eq_nil (trips : List Triple) :
    pairwiseConstraints trips = [] := by
  unfold pairwiseConstraints
  rw [zip_self_filter]
  rfl

lemma mem_modelAsserts {p : Puzzle} {c : Clue} {f : Fm} (hc : c ∈ p.clues)
    (hf : f ∈ (clueCompile p.actors p.vectors p.assets p.stolen_data c).1) :
    f ∈ modelAsserts p := by
  unfold modelAsserts
  refine List.mem_cons_of_mem _ (List.mem_append_right _ ?_)
  rw [List.mem_flatten]
  exact ⟨_, List.mem_map_of_mem _ hc, hf⟩

lemma eval_of_sat {p : Puzzle} {m : Triple → Bool} {f : Fm}
    (hm : ((modelAsserts p).all fun g => g.eval m) = true)
    (hf : f ∈ modelAsserts p) : f.eval m = true :=
  List.all_eq_true.mp hm f hf

/-- C3: a Negation clue that resolves to actor `a` and vector `v` forces
`triple(a, v, t)` false for every asset `t` in every satisfying assignment
of the final constraint model.  The non-emptiness side conditions on the
resolved labels are the catalog invariant of §3 and match the Python
truthiness guard of the source. -/
theorem c3_negation_soundness (p : Puzzle) (c : Clue) (a v : String)
    (hc : c ∈ p.clues) (ht : c.typ = "negation")
    (ha : resolveEntity p.actors c.text = some a)
    (hv : resolveEntity p.vectors c.text = some v)
    (ha0 : a ≠ "") (hv0 : v ≠ "") (m : Triple → Bool)
    (hm : ((modelAsserts p).all fun f => f.eval m) = true) :
    ∀ t ∈ p.assets, m (a, v, t) = false := by
  intro t htm
  have hf : Fm.notF (Fm.varF (a, v, t)) ∈
      (clueCompile p.actors p.vectors p.assets p.stolen_data c).1 := by
    simp only [clueCompile, ht, ha, hv]
    simp [ha0, hv0]
    exact htm
  have h := eval_of_sat hm (mem_modelAsserts hc hf)
  simpa [Fm.eval] using h

/-- C3 witness: the negation clue of `W3` resolves to ("A", "V"); the
assignment making only ("B", "V", "T") true satisfies the model, and on it
every ("A", "V", t) is false. -/
theorem c3_witness :
    asg [("B", "V", "T")] ("A", "V", "T") = false :=
  c3_negation_soundness W3 { text := "A did not use V", typ := "negation" }
    "A" "V" (by decide) rfl (by decide) (by decide) (by decide) (by decide)
    (asg [("B", "V", "T")]) (by decide) "T" (by decide)

/-- C4: a Conditional clue that resolves to (a, v, s) makes any satisfying
assignment with `triple(a, v, t)` true for an asset `t ≠ s` impossible:
both emitted implication families force `triple(a, v, t)` false. -/
theorem c4_conditional_biconditional (p : Puzzle) (c : Clue) (a v s : String)
    (hc : c ∈ p.clues) (ht : c.typ = "conditional")
    (ha : resolveEntity p.actors c.text = some a)
    (hv : resolveEntity p.vectors c.text = some v)
    (hs : resolveEntity p.assets c.text = some s)
    (ha0 : a ≠ "") (hv0 : v ≠ "") (hs0 : s ≠ "") (m : Triple → Bool)
    (hm : ((modelAsserts p).all fun f => f.eval m) = true) :
    ∀ t ∈ p.assets, t ≠ s → m (a, v, t) = false := by
  intro t htm hts
  have htf : t ∈ p.assets.filter fun x => x != s :=
    List.mem_filter.mpr ⟨htm, by simpa using hts⟩
  have hbranch :
      (clueCompile p.actors p.vectors p.assets p.stolen_data c).1 =
        ((p.assets.filter fun x => x != s).map fun x =>
          Fm.impliesF (Fm.varF (a, v, x)) (Fm.varF (a, v, s))) ++
        ((p.assets.filter fun x => x != s).map fun x =>
          Fm.impliesF (Fm.varF (a, v, s)) (Fm.notF (Fm.varF (a, v, x)))) := by
    simp only [clueCompile, ht, ha, hv, hs]
    simp [ha0, hv0, hs0]
  have hf1 : Fm.impliesF (Fm.varF (a, v, t)) (Fm.varF (a, v, s)) ∈
      (clueCompile p.actors p.vectors p.assets p.stolen_data c).1 := by
    rw [hbranch]
    exact List.mem_append_left _ (List.mem_map_of_mem _ htf)
  have hf2 : Fm.impliesF (Fm.varF (a, v, s)) (Fm.notF (Fm.varF (a, v, t))) ∈
      (clueCompile p.actors p.vectors p.assets p.stolen_data c).1 := by
    rw [hbranch]
    exact List.mem_append_right _ (List.mem_map_of_mem _ htf)
  have h1 := eval_of_sat hm (mem_modelAsserts hc hf1)
  have h2 := eval_of_sat hm (mem_modelAsserts hc hf2)
  simp only [Fm.eval] at h1 h2
  cases hx : m (a, v, t) with
  | false => rfl
  | true =>
    rw [hx] at h1 h2
    simp at h1
    rw [h1] at h2
    simp at h2

/-- C4 witness: the conditional clue of `W4` resolves to ("A", "V", "S");
the assignment making only ("A", "V", "S") true satisfies the model, and
on it ("A", "V", "T") is false. -/
theorem c4_witness :
    asg [("A", "V", "S")] ("A", "V", "T") = false :=
  c4_conditional_biconditional W4 { text := "If A used V then S", typ := "conditional" }
    "A" "V" "S" (by decide) rfl (by decide) (by decide) (by decide)
    (by decide) (by decide) (by decide)
    (asg [("A", "V", "S")]) (by decide) "T" (by decide) (by decide)

lemma resolveEntity_first (cat : List String) (text : String) :
    resolveEntity cat text = (cat.filter fun x => substrB x text).head? := by
  induction cat with
  | nil => rfl
  | cons x xs ih =>
    unfold resolveEntity
    by_cases h : substrB x text = true
    · simp [List.filter_cons, h]
    · simp only [Bool.not_eq_true] at h
      simp [List.filter_cons, h, ih]

lemma failed_resolution_skips (acts vecs asts stol : List String) (c : Clue)
    (h : requiredResolutionFails acts vecs asts stol c) :
    clueCompile acts vecs asts stol c = ([], []) := by
  rcases h with ⟨ht, h | h⟩ | ⟨ht, h | h⟩ | ⟨ht, h | h⟩ | ⟨ht, h | h | h⟩ | ⟨ht, h⟩
  · simp [clueCompile, ht, h]
  · cases hA : resolveEntity acts c.text <;> simp [clueCompile, ht, h, hA]
  · simp [clueCompile, ht, h]
  · cases hV : resolveEntity vecs c.text <;> simp [clueCompile, ht, h, hV]
  · simp [clueCompile, ht, h]
  · cases hV : resolveEntity vecs c.text <;> simp [clueCompile, ht, h, hV]
  · simp [clueCompile, ht, h]
  · cases hA : resolveEntity acts c.text <;> simp [clueCompile, ht, h, hA]
  · cases hA : resolveEntity acts c.text <;> cases hV : resolveEntity vecs c.text <;>
      simp [clueCompile, ht, h, hA, hV]
  · simp [clueCompile, ht]

lemma compareStep_status (p : Puzzle) (tr : Triple) :
    (compareStep p tr).status ∈ statusList := by
  unfold compareStep
  dsimp only
  split
  · show "mismatch" ∈ statusList
    decide
  · split
    · show "data-not-inferable" ∈ statusList
      decide
    · show "valid" ∈ statusList
      decide

lemma verdictGiven_status (p : Puzzle) (S : List Triple) :
    (verdictGiven p S).status ∈ statusList := by
  unfold verdictGiven
  dsimp only
  split
  · show "ambiguous" ∈ statusList
    decide
  · split
    · show "invalid" ∈ statusList
      decide
    · exact compareStep_status _ _

lemma validate_status (p : Puzzle) : (validate_puzzle p).status ∈ statusList := by
  unfold validate_puzzle
  split
  · show "invalid" ∈ statusList
    decide
  · exact verdictGiven_status _ _

/-- C5: entity resolution returns the first catalog item in catalog order
contained in the clue text, or none; a clue for which a required category
fails to resolve contributes no constraint (and no warning); and
validation nevertheless always completes with a verdict carrying one of
the status strings. -/
theorem c5_resolution_contract :
    (∀ (cat : List String) (text : String),
        resolveEntity cat text = (cat.filter fun x => substrB x text).head?) ∧
    (∀ (acts vecs asts stol : List String) (c : Clue),
        requiredResolutionFails acts vecs asts stol c →
          clueCompile acts vecs asts stol c = ([], [])) ∧
    (∀ p : Puzzle, (validate_puzzle p).status ∈ statusList) :=
  ⟨resolveEntity_first, failed_resolution_skips, validate_status⟩

/-- C5 witness: concrete instances of the three conjuncts, with the
resolution-failure hypothesis discharged on a negation clue over an empty
actors catalog. -/
theorem c5_witness :
    resolveEntity ["Alpha", "Beta"] "Beta went first" =
      ((["Alpha", "Beta"]).filter fun x => substrB x "Beta went first").head? ∧
    clueCompile [] ["V"] ["T"] ["D"]
      { text := "nobody used V on T", typ := "negation" } = ([], []) ∧
    (validate_puzzle P1).status ∈ statusList :=
  ⟨c5_resolution_contract.1 _ _,
   c5_resolution_contract.2.1 _ _ _ _ _ (Or.inl ⟨rfl, Or.inl rfl⟩),
   c5_resolution_contract.2.2 _⟩

lemma allTriples_eq_nil {acts vecs asts : List String}
    (h : acts = [] ∨ vecs = [] ∨ asts = []) : allTriples acts vecs asts = [] := by
  rcases h with h | h | h <;> subst h <;> simp [allTriples]

lemma empty_catalog_unsat (p : Puzzle)
    (h : p.actors = [] ∨ p.vectors = [] ∨ p.assets = []) :
    validate_puzzle p = unsatVerdict := by
  have htr : allTriples p.actors p.vectors p.assets = [] := allTriples_eq_nil h
  have hall : ((modelAsserts p).all fun f => f.eval (asg [])) = false := by
    simp [modelAsserts, htr, bigOr, Fm.eval]
  have hsat : satModels p = [] := by
    unfold satModels
    rw [htr]
    simp [List.filter_cons, hall]
  simp [validate_puzzle, hsat]

/-- C6: corrected.  A puzzle with an empty catalog does not fail with a
distinct InvalidPuzzle error before solving (no such error class exists in
the code); the empty triple space makes the at-least-one disjunction the
empty (false) disjunction, the model is unsatisfiable, and the ordinary
unsatisfiable verdict is returned. -/
theorem c6_empty_catalog_amended (p : Puzzle)
    (h : p.actors = [] ∨ p.vectors = [] ∨ p.assets = []) :
    validate_puzzle p = unsatVerdict :=
  empty_catalog_unsat p h

set_option maxRecDepth 8192 in
/-- C6 counterexample: on the empty-actors puzzle `P6`, validation runs to
completion and returns the unsatisfiable verdict (a Verdict, not an
InvalidPuzzle error raised before solving). -/
theorem c6_counterexample :
    validate_puzzle P6 = unsatVerdict ∧ (validate_puzzle P6).status = "invalid" :=
  ⟨by decide, by decide⟩

set_option maxRecDepth 8192 in
/-- C6 witness: the amended statement at the concrete empty-assets puzzle
`W6`. -/
theorem c6_witness : validate_puzzle W6 = unsatVerdict :=
  c6_empty_catalog_amended W6 (Or.inr (Or.inr rfl))

/-- C7: the classifier returns the same verdict whether its mutually
exclusive terminal conditions are tested in the code order (Ambiguous
before the defensive no-solution case) or in the fixed precedence order of
§4.4 (Unsatisfiable, No-solution-but-satisfiable, Ambiguous, Mismatch,
DataNotInferable, Valid); in particular an unsatisfiable puzzle is
classified unsatisfiable before any stolen-data text check is reached. -/
theorem c7_precedence (p : Puzzle) (S : List Triple) :
    validateWithModel p S = specPrecedenceValidate p S := by
  unfold validateWithModel specPrecedenceValidate verdictGiven
  by_cases hs : satModels p = []
  · rw [if_pos hs, if_pos hs]
  · rw [if_neg hs, if_neg hs]
    dsimp only
    generalize List.filter (fun t => asg S t)
      (allTriples p.actors p.vectors p.assets) = tt
    cases tt with
    | nil => simp
    | cons a rest =>
      by_cases h : 1 < (a :: rest).length
      · simp [h]
      · simp [h]

lemma fieldsOK_unsat : fieldsOK unsatVerdict := by
  unfold fieldsOK
  decide

lemma fieldsOK_noSolution : fieldsOK noSolutionVerdict := by
  unfold fieldsOK
  decide

lemma fieldsOK_mismatch (tr sol : Triple) : fieldsOK (mismatchVerdict tr sol) := by
  unfold fieldsOK mismatchVerdict
  simp [statusList]

lemma fieldsOK_dataNotInf (ds : String) : fieldsOK (dataNotInferableVerdict ds) := by
  unfold fieldsOK dataNotInferableVerdict
  simp [statusList]

lemma fieldsOK_valid (sol : Triple) (ds : String) (n k : Nat) :
    fieldsOK (validVerdict sol ds n k) := by
  unfold fieldsOK validVerdict
  simp [statusList]

lemma fieldsOK_ambiguous (tt : List Triple) (h : tt ≠ []) :
    fieldsOK (ambiguousVerdict tt) := by
  unfold fieldsOK ambiguousVerdict
  simp [statusList, h]

lemma fieldsOK_compareStep (p : Puzzle) (tr : Triple) :
    fieldsOK (compareStep p tr) := by
  unfold compareStep
  dsimp only
  split
  · exact fieldsOK_mismatch _ _
  · split
    · exact fieldsOK_dataNotInf _
    · exact fieldsOK_valid _ _ _ _

/-- C8: every verdict the engine can return, for every puzzle and every
model the solver may choose, has a recognized status, an explanation, a
non-empty suggestions list on every non-valid status, found and expected
triples on a mismatch, a non-empty solutions list on ambiguity and the
reconstructed solution quadruple on validity (the source encodes the two
Invalid states of §4.4 as status "invalid" with distinct reasons). -/
theorem c8_output_contract (p : Puzzle) (S : List Triple) :
    fieldsOK (validateWithModel p S) := by
  unfold validateWithModel
  split
  · exact fieldsOK_unsat
  · unfold verdictGiven
    dsimp only
    split
    · rename_i h
      exact fieldsOK_ambiguous _ (List.ne_nil_of_length_pos (by omega))
    · split
      · exact fieldsOK_noSolution
      · exact fieldsOK_compareStep _ _

/-- C8 witness: the output contract instantiated at the concrete puzzle
`P1` and a concrete model. -/
theorem c8_witness : fieldsOK (validateWithModel P1 [("A", "V", "T")]) :=
  c8_output_contract P1 [("A", "V", "T")]

/-- C9: corrected.  Per-clue resolution failures are absorbed into
"no constraint contributed" (with an empty warning list, so resolution
skips are not surfaced), and validation always returns an ordinary
verdict; but no puzzle-level structural error is raised before solving as
a distinct error class: a structurally malformed puzzle (empty catalog)
also flows into solving and yields the unsatisfiable verdict. -/
theorem c9_propagation_policy :
    (∀ (acts vecs asts stol : List String) (c : Clue),
        requiredResolutionFails acts vecs asts stol c →
          clueCompile acts vecs asts stol c = ([], [])) ∧
    (∀ p : Puzzle, (validate_puzzle p).status ∈ statusList) ∧
    (∀ p : Puzzle, p.actors = [] ∨ p.vectors = [] ∨ p.assets = [] →
        validate_puzzle p = unsatVerdict) :=
  ⟨failed_resolution_skips, validate_status, empty_catalog_unsat⟩

set_option maxRecDepth 8192 in
/-- C9 counterexample: on `P9` (empty vectors catalog, one unresolvable
negation clue) the clue contributes nothing with an empty warning list,
and validation returns the ordinary unsatisfiable verdict instead of
raising a structural error before solving. -/
theorem c9_counterexample :
    clueCompile P9.actors P9.vectors P9.assets P9.stolen_data
      { text := "GhostShell did not use SQL Injection", typ := "negation" } =
        ([], []) ∧
    validate_puzzle P9 = unsatVerdict :=
  ⟨by decide, by decide⟩

/-- C9 witness: the three conjuncts of the propagation policy at concrete
inputs. -/
theorem c9_witness :
    clueCompile ["A"] [] ["T"] ["D"]
      { text := "the actor that used X avoided T", typ := "relational" } =
        ([], []) ∧
    (validate_puzzle P2).status ∈ statusList ∧
    validate_puzzle W9 = unsatVerdict :=
  ⟨c9_propagation_policy.1 ["A"] [] ["T"] ["D"]
      { text := "the actor that used X avoided T", typ := "relational" }
      (Or.inr (Or.inr (Or.inl ⟨rfl, Or.inl rfl⟩))),
   c9_propagation_policy.2.1 P2,
   c9_propagation_policy.2.2 W9 (Or.inl rfl)⟩

/-- C10: corrected.  A clue whose type is none of the five archetype
strings contributes no constraint and no warning, the constraint model is
exactly the model of the remaining clues, and validation still returns a
verdict with a recognized status; the verdict is however not computed from
the remaining clues alone, because the stolen-data text scan also reads
the unrecognized clue's text (see the counterexample). -/
theorem c10_unknown_type_amended (p : Puzzle) (c : Clue)
    (h : c.typ ∉
      ["negation", "affirmative", "relational", "conditional", "data-inference"]) :
    clueCompile p.actors p.vectors p.assets p.stolen_data c = ([], []) ∧
    modelAsserts { p with clues := c :: p.clues } = modelAsserts p ∧
    (validate_puzzle { p with clues := c :: p.clues }).status ∈ statusList := by
  simp only [List.mem_cons, List.not_mem_nil, or_false, not_or] at h
  obtain ⟨h1, h2, h3, h4, h5⟩ := h
  have hc : clueCompile p.actors p.vectors p.assets p.stolen_data c = ([], []) := by
    unfold clueCompile
    simp [h1, h2, h3, h4, h5]
  refine ⟨hc, ?_, validate_status _⟩
  unfold modelAsserts
  dsimp only
  simp [hc]

/-- C10 counterexample: on `P10` the unrecognized clue contributes no
constraint, yet removing it changes the verdict from valid to
data-not-inferable, because the stolen-data scan reads every clue text. -/
theorem c10_counterexample :
    clueCompile P10.actors P10.vectors P10.assets P10.stolen_data
      { text := "mystery D", typ := "unknown" } = ([], []) ∧
    (validate_puzzle P10).status = "valid" ∧
    (validate_puzzle { P10 with clues := [] }).status = "data-not-inferable" :=
  ⟨by decide, by decide, by decide⟩

/-- C10 witness: the amended statement at a concrete unrecognized clue on
`P1`. -/
theorem c10_witness :
    clueCompile P1.actors P1.vectors P1.assets P1.stolen_data
      { text := "zzz", typ := "weird" } = ([], []) ∧
    modelAsserts
      { P1 with clues := { text := "zzz", typ := "weird" } :: P1.clues } =
        modelAsserts P1 ∧
    (validate_puzzle
      { P1 with clues := { text := "zzz", typ := "weird" } :: P1.clues }).status ∈
        statusList :=
  c10_unknown_type_amended P1 { text := "zzz", typ := "weird" } (by decide)

/-- C1: code bug.  The pairwise not-both-true constraint is never added:
the source zips the variable list with itself, so the `is not` guard never
fires.  On the two-triple puzzle `P1` the model holds only the
at-least-one disjunction, and the assignment making both triple variables
true satisfies the model, so a satisfying assignment need not have exactly
one triple variable true. -/
theorem c1_missing_pairwise_bug :
    (modelAsserts P1).length = 1 ∧
    pairwiseConstraints (allTriples P1.actors P1.vectors P1.assets) = [] ∧
    allTriples P1.actors P1.vectors P1.assets ∈ satModels P1 ∧
    ((allTriples P1.actors P1.vectors P1.assets).filter fun t =>
        asg (allTriples P1.actors P1.vectors P1.assets) t).length = 2 :=
  ⟨by decide, by decide, by decide, by decide⟩

/-- C2: code bug.  The solver step performs a single satisfiability check
and counts the triple variables true in that one model; it does not
enumerate satisfying assignments.  The model of `P2` has three satisfying
assignments over the triple variables, yet the engine (with the first
enumerated model, a single-true assignment) classifies the puzzle valid
instead of ambiguous. -/
theorem c2_single_model_bug :
    (satModels P2).length = 3 ∧ 1 < (satModels P2).length ∧
    (validate_puzzle P2).status = "valid" :=
  ⟨by decide, by decide, by decide⟩

end LogicValidator
